import Mathlib

/-!
Shallow embedding of the WaveSpeed JavaScript client (src/index.ts):
the transport layer (`fetchWithTimeout`, `shouldRetry`, `_getBackoffTime`),
the job lifecycle manager (`create`, `reload`, `wait`, `upload`), and the
client constructor's credential resolution.  JavaScript truthiness of the
`x || d` idiom is modelled explicitly; HTTP attempts are driven by an
oracle `Nat → AttemptResult` giving the outcome of each successive fetch.
-/

/-- JavaScript `v || d` for an optional string: `undefined` and `""` are falsy. -/
def jsOrStr (v : Option String) (d : String) : String :=
  match v with
  | none => d
  | some s => if s = "" then d else s

/-- JavaScript `v || d` for an optional number: `undefined` and `0` are falsy. -/
def jsOrNat (v : Option Nat) (d : Nat) : Nat :=
  match v with
  | none => d
  | some n => if n = 0 then d else n

/-- The JSON payload fields of a prediction envelope (`data.data`).
`outputs` and `has_nsfw_contents` are optional in the wire format
(the constructor applies `|| []`). -/
structure PredictionData where
  id : String
  model : String
  status : String
  input : List (String × String)
  outputs : Option (List String)
  urlsGet : String
  has_nsfw_contents : Option (List Bool)
  created_at : String
  error : Option String
  executionTime : Option ℚ
deriving DecidableEq, Repr

/-- A fetch `Response` as the client reads it: HTTP status, the JSON
envelope's application-level `code`, the envelope's `data` payload, and the
body text used in error messages. -/
structure Response where
  status : Nat
  jsonCode : Int := 200
  jsonData : Option PredictionData := none
  bodyText : String := ""
deriving DecidableEq, Repr

/-- `Response.ok` of the fetch API: status in [200, 300). -/
def Response.ok (r : Response) : Bool :=
  decide (200 ≤ r.status ∧ r.status < 300)

/-- `.toUpperCase()` character by character (HTTP method names are ASCII). -/
def toUpperStr (s : String) : String :=
  String.mk (s.data.map Char.toUpper)

/-- `shouldRetry` closure in `fetchWithTimeout`: retry on 429 for every
method, and on 5xx for GET only; the method defaults to GET and is
upper-cased, mirroring `(fetchOptions.method || 'GET').toUpperCase()`. -/
def shouldRetry (method : Option String) (r : Response) : Bool :=
  let m := toUpperStr (jsOrStr method "GET")
  r.status == 429 || (m == "GET" && decide (500 ≤ r.status))

/-- The error kinds distinguished by the retry loop's catch clause:
`AbortError` (timeout cancellation), `TypeError` (network failure), other. -/
inductive JsError
  | abortError
  | typeError
  | otherError
deriving DecidableEq, Repr

/-- Retryability test of the catch clause:
`error.name === 'AbortError' || error.name === 'TypeError'`. -/
def errorRetryable (e : JsError) : Bool :=
  e == JsError.abortError || e == JsError.typeError

/-- The outcome of one HTTP attempt: a response, or a thrown error. -/
inductive AttemptResult
  | resp (r : Response)
  | err (e : JsError)
deriving DecidableEq, Repr

/-- How `fetchWithTimeout` ends: the last response returned as a value,
or the last error re-thrown; `attempts` counts the fetch calls made.
`fuelExhausted` is unreachable for the fuel used (see
`fetchLoop_ne_fuelExhausted`). -/
inductive FetchOutcome
  | returned (r : Response) (attempts : Nat)
  | threw (e : JsError) (attempts : Nat)
  | fuelExhausted
deriving DecidableEq, Repr

/-- The `while (true)` retry loop of `fetchWithTimeout`, indexed by the
current `retryCount`.  The oracle gives the outcome of each attempt
(attempt `k` is made with `retryCount = k`).  A response is returned when
`response.ok || !shouldRetry(response) || retryCount >= maxRetries`; an
error is re-thrown unless retryable and `retryCount < maxRetries`;
otherwise `retryCount` increments and the loop continues.  The structural
`fuel` bounds the recursion; `maxRetries + 1` always suffices. -/
def fetchLoop (oracle : Nat → AttemptResult) (method : Option String)
    (maxRetries : Nat) : Nat → Nat → FetchOutcome
  | _, 0 => FetchOutcome.fuelExhausted
  | retryCount, fuel + 1 =>
    match oracle retryCount with
    | AttemptResult.resp r =>
      if r.ok || !shouldRetry method r || decide (maxRetries ≤ retryCount) then
        FetchOutcome.returned r (retryCount + 1)
      else
        fetchLoop oracle method maxRetries (retryCount + 1) fuel
    | AttemptResult.err e =>
      if errorRetryable e && decide (retryCount < maxRetries) then
        fetchLoop oracle method maxRetries (retryCount + 1) fuel
      else
        FetchOutcome.threw e (retryCount + 1)

/-- `const maxRetries = options.maxRetries || 3`: an absent override and an
override of `0` both resolve to the default 3 (JS falsy-or). -/
def effectiveMaxRetries (maxRetriesOpt : Option Nat) : Nat :=
  jsOrNat maxRetriesOpt 3

/-- `fetchWithTimeout` restricted to its retry behaviour: resolve the
retry budget and run the loop from `retryCount = 0`. -/
def fetchWithTimeout (oracle : Nat → AttemptResult) (method : Option String)
    (maxRetriesOpt : Option Nat) : FetchOutcome :=
  let maxRetries := effectiveMaxRetries maxRetriesOpt
  fetchLoop oracle method maxRetries 0 (maxRetries + 1)

theorem fetchLoop_ne_fuelExhausted (oracle : Nat → AttemptResult)
    (method : Option String) (maxRetries : Nat) :
    ∀ fuel retryCount, retryCount ≤ maxRetries → maxRetries < retryCount + fuel →
      fetchLoop oracle method maxRetries retryCount fuel ≠ FetchOutcome.fuelExhausted := by
  intro fuel
  induction fuel with
  | zero => intro retryCount hle h; omega
  | succ n ih =>
    intro retryCount hle h
    unfold fetchLoop
    cases horacle : oracle retryCount with
    | resp r =>
      by_cases hc : (r.ok || !shouldRetry method r || decide (maxRetries ≤ retryCount)) = true
      · simp [hc]
      · simp only [hc, if_false]
        have hlt : ¬ (maxRetries ≤ retryCount) := by
          intro hge
          apply hc
          simp [hge]
        exact ih (retryCount + 1) (by omega) (by omega)
    | err e =>
      by_cases hc : (errorRetryable e && decide (retryCount < maxRetries)) = true
      · simp only [hc, if_true]
        have hlt : retryCount < maxRetries := by
          rcases Bool.and_eq_true_iff.mp hc with ⟨_, h2⟩
          exact of_decide_eq_true h2
        exact ih (retryCount + 1) (by omega) (by omega)
      · simp [hc]

/-- `_getBackoffTime(retryCount, initialBackoff)`:
`backoff = initialBackoff * 2 ^ retryCount` plus jitter
`rand * (backoff / 2)`, where `rand` models `Math.random()` ∈ [0, 1). -/
def getBackoffTime (retryCount : Nat) (initialBackoff : ℚ) (rand : ℚ) : ℚ :=
  let backoff := initialBackoff * 2 ^ retryCount
  backoff + rand * (backoff / 2)

/-- Job status enum of the client: `created`, `processing`, `completed`, `failed`. -/
inductive PredictionStatus
  | created
  | processing
  | completed
  | failed
deriving DecidableEq, Repr

/-- `status === 'completed' || status === 'failed'`, the terminal test of `wait`. -/
def isTerminal (s : PredictionStatus) : Bool :=
  s == PredictionStatus.completed || s == PredictionStatus.failed

/-- The status string of the wire payload parsed into the enum (any other
string would be an out-of-contract payload; the client stores it as-is, so
the model restricts payloads to the four contract values via `Option`). -/
def parseStatus (s : String) : Option PredictionStatus :=
  if s = "created" then some PredictionStatus.created
  else if s = "processing" then some PredictionStatus.processing
  else if s = "completed" then some PredictionStatus.completed
  else if s = "failed" then some PredictionStatus.failed
  else none

/-- The `Prediction` instance fields set by the constructor. -/
structure Prediction where
  id : String
  model : String
  status : PredictionStatus
  input : List (String × String)
  outputs : List String
  urlsGet : String
  has_nsfw_contents : List Bool
  created_at : String
  error : Option String
  executionTime : Option ℚ
deriving DecidableEq, Repr

/-- The `Prediction` constructor applied to an envelope `data` payload:
every field is copied from the payload, with `outputs` and
`has_nsfw_contents` defaulted to `[]` when absent (`data.outputs || []`). -/
def predictionFromData (status : PredictionStatus) (d : PredictionData) : Prediction where
  id := d.id
  model := d.model
  status := status
  input := d.input
  outputs := d.outputs.getD []
  urlsGet := d.urlsGet
  has_nsfw_contents := d.has_nsfw_contents.getD []
  created_at := d.created_at
  error := d.error
  executionTime := d.executionTime

/-- The error taxonomy surfaced by the lifecycle manager (each source
`throw new Error(...)` site gets one constructor carrying the same data). -/
inductive ClientError
  | reloadFailed (status : Nat) (body : String)
  | createFailedHttp (status : Nat) (body : String)
  | createFailedCode (code : Int)
  | uploadFailed (status : Nat) (body : String)
  | badPayload
deriving DecidableEq, Repr

/-- The GET path `reload` requests: `predictions/{id}/result`. -/
def reloadPath (p : Prediction) : String :=
  "predictions/" ++ p.id ++ "/result"

/-- `Prediction.reload` applied to the response of its GET: on a non-ok
status it throws a reload error with status and body text; on success it
builds a fresh `Prediction` from the envelope's `data` payload and
`Object.assign`s it over the existing instance, overwriting every field —
so the resulting record is exactly the fresh snapshot, independent of the
prior field values of `p` — and returns that same (mutated) instance. -/
def reload (p : Prediction) (resp : Response) : Except ClientError Prediction :=
  if resp.ok then
    match resp.jsonData with
    | some d =>
      match parseStatus d.status with
      | some st => Except.ok (predictionFromData st d)
      | none => Except.error ClientError.badPayload
    | none => Except.error ClientError.badPayload
  else
    Except.error (ClientError.reloadFailed resp.status resp.bodyText)

/-- The submission path built by `create`: the model id, with
`?webhook=<url>` appended when a truthy webhook option is present. -/
def createPath (modelId : String) (webhook : Option String) : String :=
  match webhook with
  | some w => if w = "" then modelId else modelId ++ "?webhook=" ++ w
  | none => modelId

/-- `WaveSpeed.create` applied to the response of its POST: a non-ok HTTP
status throws a creation error with status and body; then an envelope
`code !== 200` throws a creation error even though HTTP succeeded; else a
new `Prediction` is built from the envelope's `data` payload. -/
def create (resp : Response) : Except ClientError Prediction :=
  if resp.ok then
    if resp.jsonCode ≠ 200 then
      Except.error (ClientError.createFailedCode resp.jsonCode)
    else
      match resp.jsonData with
      | some d =>
        match parseStatus d.status with
        | some st => Except.ok (predictionFromData st d)
        | none => Except.error ClientError.badPayload
      | none => Except.error ClientError.badPayload
  else
    Except.error (ClientError.createFailedHttp resp.status resp.bodyText)

/-- Observable events of a `wait` call: a `reload` network call, or a
`setTimeout` sleep of the given duration in milliseconds. -/
inductive WaitEvent
  | reloadCall
  | sleep (ms : ℚ)
deriving DecidableEq, Repr

/-- How a `wait` call settles: resolved with a prediction, rejected with
the error thrown by `reload`, or still polling when the observation fuel
runs out (the loop itself is unbounded while the job stays non-terminal). -/
inductive WaitResult
  | resolved (p : Prediction)
  | rejected
  | stillPolling
deriving DecidableEq, Repr

/-- The `checkStatus` loop body of `Prediction.wait`, driven by an oracle
giving the result of the i-th `reload` (`none` models a throw).  Each
iteration calls `reload`; a terminal status resolves, a throw rejects, and
otherwise a `setTimeout(checkStatus, pollInterval * 1000)` sleep precedes
the next iteration.  Returns the event trace and the settlement. -/
def checkStatus (oracle : Nat → Option Prediction) (pollMs : ℚ) :
    Nat → Nat → List WaitEvent × WaitResult
  | _, 0 => ([], WaitResult.stillPolling)
  | i, fuel + 1 =>
    match oracle i with
    | none => ([WaitEvent.reloadCall], WaitResult.rejected)
    | some q =>
      if isTerminal q.status then
        ([WaitEvent.reloadCall], WaitResult.resolved q)
      else
        let rest := checkStatus oracle pollMs (i + 1) fuel
        (WaitEvent.reloadCall :: WaitEvent.sleep pollMs :: rest.1, rest.2)

/-- `Prediction.wait`: if the status is already terminal it returns `this`
at once (no events); otherwise `checkStatus()` is invoked immediately. -/
def wait (p : Prediction) (oracle : Nat → Option Prediction) (pollMs : ℚ)
    (fuel : Nat) : List WaitEvent × WaitResult :=
  if isTerminal p.status then
    ([], WaitResult.resolved p)
  else
    checkStatus oracle pollMs 0 fuel

/-- Does a sleep event immediately precede every `reload` call of a trace?
(The property the spec asserts of the `wait` polling loop.) -/
def sleepBefore (prev : Option WaitEvent) : List WaitEvent → Bool
  | [] => true
  | e :: rest =>
    (match e, prev with
     | WaitEvent.reloadCall, some (WaitEvent.sleep _) => true
     | WaitEvent.reloadCall, _ => false
     | _, _ => true) && sleepBefore (some e) rest

def sleepPrecedesEveryReload (tr : List WaitEvent) : Bool :=
  sleepBefore none tr

/-- Header lists standing for the JS header objects. -/
abbrev Headers := List (String × String)

/-- Object spread `{...base, ...extra}`: keys of `base` keep their position
but take `extra`'s value when overridden; keys only in `extra` follow. -/
def mergeHeaders (base extra : Headers) : Headers :=
  base.map (fun p =>
    match extra.find? (fun q => q.1 == p.1) with
    | some q => (p.1, q.2)
    | none => p)
  ++ extra.filter (fun q => !(base.any (fun p => p.1 == q.1)))

/-- Header composition of `fetchWithTimeout`: uploads get only the
Authorization bearer header; every other call also gets
`content-type: application/json`; caller-supplied headers are spread over
the injected ones. -/
def composeHeaders (apiKey : String) (isUpload : Bool)
    (callerHeaders : Headers) : Headers :=
  if isUpload then
    mergeHeaders [("Authorization", "Bearer " ++ apiKey)] callerHeaders
  else
    mergeHeaders
      [("Authorization", "Bearer " ++ apiKey),
       ("content-type", "application/json")] callerHeaders

/-- The `RequestOptions` fields the model tracks (`body` is opaque).
`none` models an absent key; `isUpload` is read only for truthiness, so a
plain `Bool` defaulting to `false` is faithful. -/
structure RequestOptions where
  method : Option String := none
  timeout : Option Nat := none
  maxRetries : Option Nat := none
  headers : Option Headers := none
  webhook : Option String := none
  isUpload : Bool := false
deriving Repr

/-- Object spread `{...base, ...o}` on request options: a field present in
`o` overrides `base`'s. -/
def spreadOptions (base o : RequestOptions) : RequestOptions where
  method := Option.orElse o.method (fun _ => base.method)
  timeout := Option.orElse o.timeout (fun _ => base.timeout)
  maxRetries := Option.orElse o.maxRetries (fun _ => base.maxRetries)
  headers := Option.orElse o.headers (fun _ => base.headers)
  webhook := Option.orElse o.webhook (fun _ => base.webhook)
  isUpload := o.isUpload || base.isUpload

/-- The fetch options `upload` passes to `fetchWithTimeout`:
`options` is defaulted to `{ isUpload: true }` only when the caller passed
none (`options == null`), then spread over `{method: 'POST', body: form}`. -/
def uploadFetchOptions (options : Option RequestOptions) : RequestOptions :=
  let opts :=
    match options with
    | none => { isUpload := true : RequestOptions }
    | some o => o
  spreadOptions { method := some "POST" } opts

/-- The headers `fetchWithTimeout` composes for an `upload` call. -/
def uploadHeaders (apiKey : String) (options : Option RequestOptions) : Headers :=
  let fo := uploadFetchOptions options
  composeHeaders apiKey fo.isUpload (fo.headers.getD [])

/-- `getEnvVar` of the constructor: yields the environment value only when
present and truthy (an empty-string variable reads as absent). -/
def getEnvVar (env : Option String) : Option String :=
  match env with
  | some s => if s = "" then none else some s
  | none => none

/-- `this.apiKey = apiKey || getEnvVar('WAVESPEED_API_KEY') || ''`. -/
def resolveApiKey (apiKeyArg : Option String) (env : Option String) : String :=
  jsOrStr apiKeyArg (jsOrStr (getEnvVar env) "")

/-- The constructor's credential check: resolve the key, then
`if (!this.apiKey) throw` — purely synchronous, no network involved. -/
def constructClient (apiKeyArg : Option String) (env : Option String) :
    Except String String :=
  let k := resolveApiKey apiKeyArg env
  if k = "" then
    Except.error "API key is required. Provide it as a parameter or set the WAVESPEED_API_KEY environment variable."
  else
    Except.ok k

/-- A concrete prediction record used by witnesses and counterexamples. -/
def samplePrediction (s : PredictionStatus) : Prediction where
  id := "p1"
  model := "wavespeed-ai/flux-dev"
  status := s
  input := [("prompt", "a")]
  outputs := []
  urlsGet := "predictions/p1/result"
  has_nsfw_contents := []
  created_at := "2025-01-01T00:00:00Z"
  error := none
  executionTime := none

/-- An attempt oracle that always answers HTTP 429. -/
def always429 : Nat → AttemptResult :=
  fun _ => AttemptResult.resp { status := 429 }

/-- An attempt oracle answering HTTP 503 first, then HTTP 200. -/
def first503then200 : Nat → AttemptResult :=
  fun i => if i = 0 then AttemptResult.resp { status := 503 }
           else AttemptResult.resp { status := 200 }

/-- An attempt oracle that always answers HTTP 503. -/
def always503 : Nat → AttemptResult :=
  fun _ => AttemptResult.resp { status := 503 }

theorem shouldRetry_429 (m : Option String) :
    shouldRetry m { status := 429 } = true := by
  simp [shouldRetry]

/-- C1: with every attempt answering HTTP 429 and a per-call max-retry
override of 2, `fetchWithTimeout` makes exactly 3 attempts (1 initial +
2 retries) and returns the final 429 response as a value (not thrown),
whatever the request method. -/
theorem retry_cap_three_attempts_on_429 (method : Option String) :
    fetchWithTimeout always429 method (some 2) =
      FetchOutcome.returned { status := 429 } 3 := by
  have hs := shouldRetry_429 method
  simp [fetchWithTimeout, effectiveMaxRetries, jsOrNat, fetchLoop, always429,
    Response.ok, hs]

/-- C2: HTTP 429 is retryable for every method while 5xx is retryable only
for GET; concretely, a GET seeing 503 then 200 makes 2 attempts and yields
the 200 response, and a POST seeing 503 makes exactly 1 attempt and
returns the 503 response without retrying. -/
theorem method_sensitive_retry_policy :
    (∀ m, shouldRetry m { status := 429 } = true)
    ∧ (∀ k : Nat, shouldRetry (some "GET") { status := 500 + k } = true)
    ∧ (∀ k : Nat, shouldRetry (some "POST") { status := 500 + k } = false)
    ∧ fetchWithTimeout first503then200 (some "GET") none =
        FetchOutcome.returned { status := 200 } 2
    ∧ fetchWithTimeout always503 (some "POST") none =
        FetchOutcome.returned { status := 503 } 1 := by
  refine ⟨shouldRetry_429, ?_, ?_, by decide, by decide⟩
  · intro k
    have h1 : (toUpperStr "GET" == "GET") = true := by decide
    have h2 : 500 ≤ 500 + k := Nat.le_add_right 500 k
    simp [shouldRetry, jsOrStr, h1, h2]
  · intro k
    have h1 : (toUpperStr "POST" == "GET") = false := by decide
    have h2 : 500 + k ≠ 429 := by omega
    simp [shouldRetry, jsOrStr, h1, h2]

theorem checkStatus_shape (oracle : Nat → Option Prediction) (pollMs : ℚ)
    (q : Prediction) :
    ∀ (n i fuel : Nat),
      (∀ k, k < n → ∃ qk, oracle (i + k) = some qk ∧ isTerminal qk.status = false) →
      oracle (i + n) = some q → isTerminal q.status = true → n < fuel →
      checkStatus oracle pollMs i fuel =
        (WaitEvent.reloadCall ::
           (List.replicate n [WaitEvent.sleep pollMs, WaitEvent.reloadCall]).join,
         WaitResult.resolved q) := by
  intro n
  induction n with
  | zero =>
    intro i fuel _ hq hterm hfuel
    match fuel, hfuel with
    | f + 1, _ =>
      unfold checkStatus
      rw [show i + 0 = i from rfl] at hq
      simp [hq, hterm]
  | succ n ih =>
    intro i fuel hpoll hq hterm hfuel
    match fuel, hfuel with
    | f + 1, hfuel =>
      obtain ⟨q0, hq0, hq0nt⟩ := hpoll 0 (Nat.succ_pos n)
      rw [show i + 0 = i from rfl] at hq0
      unfold checkStatus
      rw [hq0]
      simp only [hq0nt, Bool.false_eq_true, if_false]
      have hpoll1 : ∀ k, k < n → ∃ qk,
          oracle (i + 1 + k) = some qk ∧ isTerminal qk.status = false := by
        intro k hk
        have := hpoll (k + 1) (Nat.succ_lt_succ hk)
        rwa [show i + (k + 1) = i + 1 + k from by omega] at this
      have hq1 : oracle (i + 1 + n) = some q := by
        rwa [show i + (n + 1) = i + 1 + n from by omega] at hq
      rw [ih (i + 1) f hpoll1 hq1 hterm (Nat.lt_of_succ_lt_succ hfuel)]
      simp [List.replicate_succ]

/-- C3 counterexample: `wait` on a non-terminal job whose very first
`reload` already reports `completed` issues exactly one `reload` and no
sleep at all, so no sleep of the poll interval precedes the first reload. -/
theorem wait_first_reload_without_sleep :
    (wait (samplePrediction PredictionStatus.processing)
        (fun _ => some (samplePrediction PredictionStatus.completed)) 500 5).1 =
      [WaitEvent.reloadCall]
    ∧ sleepPrecedesEveryReload
        (wait (samplePrediction PredictionStatus.processing)
          (fun _ => some (samplePrediction PredictionStatus.completed)) 500 5).1 =
      false := by
  refine ⟨rfl, rfl⟩

/-- C3 (amended): on a non-terminal job, `wait` polls sequentially with
`reload` issued immediately first; each further reload is preceded by one
sleep of the poll interval, until a reload reports a terminal status —
the trace is `reload, (sleep, reload)*` and the terminal record resolves. -/
theorem wait_reload_first_then_sleep_between_polls
    (oracle : Nat → Option Prediction) (pollMs : ℚ) (p q : Prediction)
    (n fuel : Nat)
    (hp : isTerminal p.status = false)
    (hpoll : ∀ k, k < n → ∃ qk, oracle k = some qk ∧ isTerminal qk.status = false)
    (hq : oracle n = some q) (hterm : isTerminal q.status = true)
    (hfuel : n < fuel) :
    wait p oracle pollMs fuel =
      (WaitEvent.reloadCall ::
         (List.replicate n [WaitEvent.sleep pollMs, WaitEvent.reloadCall]).join,
       WaitResult.resolved q) := by
  unfold wait
  rw [hp]
  simp only [Bool.false_eq_true, if_false]
  exact checkStatus_shape oracle pollMs q n 0 fuel
    (by simpa using hpoll) (by simpa using hq) hterm hfuel

/-- Reload oracle answering `processing` once, then `completed`. -/
def pollTwiceOracle : Nat → Option Prediction :=
  fun i => if i = 0 then some (samplePrediction PredictionStatus.processing)
           else some (samplePrediction PredictionStatus.completed)

theorem wait_reload_first_then_sleep_between_polls_witness :
    wait (samplePrediction PredictionStatus.created) pollTwiceOracle 500 3 =
      ([WaitEvent.reloadCall, WaitEvent.sleep 500, WaitEvent.reloadCall],
       WaitResult.resolved (samplePrediction PredictionStatus.completed)) := by
  have h := wait_reload_first_then_sleep_between_polls pollTwiceOracle 500
    (samplePrediction PredictionStatus.created)
    (samplePrediction PredictionStatus.completed) 1 3
    (by decide)
    (by
      intro k hk
      have hk0 : k = 0 := by omega
      subst hk0
      exact ⟨samplePrediction PredictionStatus.processing, rfl, rfl⟩)
    rfl (by decide) (by decide)
  simpa using h

/-- C4: `wait` on a job already in a terminal state performs no network
call, no sleep, and resolves at once with the very same record, every
field unchanged. -/
theorem wait_terminal_is_noop (p : Prediction) (oracle : Nat → Option Prediction)
    (pollMs : ℚ) (fuel : Nat) (h : isTerminal p.status = true) :
    wait p oracle pollMs fuel = ([], WaitResult.resolved p) := by
  unfold wait
  rw [h]
  simp

theorem wait_terminal_is_noop_witness :
    wait (samplePrediction PredictionStatus.failed)
        (fun _ => (none : Option Prediction)) 500 7 =
      ([], WaitResult.resolved (samplePrediction PredictionStatus.failed)) :=
  wait_terminal_is_noop _ _ _ _ (by decide)

/-- C5: a successful `reload` overwrites every field of the record with
the freshly parsed snapshot — the result is exactly the fresh snapshot and
does not depend on any prior field value (no field-by-field merge) — and
the mutated instance itself is what is returned. -/
theorem reload_wholesale_overwrite (p q : Prediction) (resp : Response)
    (d : PredictionData) (st : PredictionStatus)
    (hok : resp.ok = true) (hd : resp.jsonData = some d)
    (hst : parseStatus d.status = some st) :
    reload p resp = Except.ok (predictionFromData st d)
    ∧ reload p resp = reload q resp := by
  constructor
  · simp [reload, hok, hd, hst]
  · simp [reload, hok, hd, hst]

/-- A completed-job envelope payload used by witnesses. -/
def sampleData : PredictionData where
  id := "p1"
  model := "wavespeed-ai/flux-dev"
  status := "completed"
  input := [("prompt", "a")]
  outputs := some ["url1"]
  urlsGet := "predictions/p1/result"
  has_nsfw_contents := some [false]
  created_at := "2025-01-01T00:00:00Z"
  error := none
  executionTime := some 2

/-- A successful reload response carrying `sampleData`. -/
def sampleReloadResponse : Response where
  status := 200
  jsonCode := 200
  jsonData := some sampleData
  bodyText := ""

theorem reload_wholesale_overwrite_witness :
    reload (samplePrediction PredictionStatus.processing) sampleReloadResponse =
      Except.ok (predictionFromData PredictionStatus.completed sampleData)
    ∧ reload (samplePrediction PredictionStatus.processing) sampleReloadResponse =
      reload (samplePrediction PredictionStatus.created) sampleReloadResponse :=
  reload_wholesale_overwrite
    (samplePrediction PredictionStatus.processing)
    (samplePrediction PredictionStatus.created)
    sampleReloadResponse sampleData PredictionStatus.completed
    (by decide) rfl (by decide)

/-- C6: when the HTTP transport succeeds (2xx) but the JSON envelope's own
`code` field differs from the expected success code 200, `create` fails
with a creation error instead of returning a job record. -/
theorem create_fails_on_app_level_code (resp : Response)
    (hok : resp.ok = true) (hcode : resp.jsonCode ≠ 200) :
    create resp = Except.error (ClientError.createFailedCode resp.jsonCode) := by
  simp [create, hok, hcode]

theorem create_fails_on_app_level_code_witness :
    create { status := 200, jsonCode := 500, jsonData := some sampleData } =
      Except.error (ClientError.createFailedCode 500) :=
  create_fails_on_app_level_code
    { status := 200, jsonCode := 500, jsonData := some sampleData }
    (by decide) (by decide)

/-- C7: for every retry attempt `n ≥ 1` and every jitter draw in [0, 1),
the computed backoff is `1000·2^n` plus a jitter below half of it, hence
lies in `[1000·2^n, 1000·2^n + 500·2^n)` milliseconds. -/
theorem backoff_in_range (n : Nat) (r : ℚ) (hn : 1 ≤ n)
    (h0 : 0 ≤ r) (h1 : r < 1) :
    1000 * 2 ^ n ≤ getBackoffTime n 1000 r
    ∧ getBackoffTime n 1000 r < 1000 * 2 ^ n + 500 * 2 ^ n := by
  unfold getBackoffTime
  have hc : (0:ℚ) < 2 ^ n := by positivity
  have hhalf : (0:ℚ) < 1000 * 2 ^ n / 2 := by positivity
  constructor
  · have hj : 0 ≤ r * (1000 * 2 ^ n / 2) := mul_nonneg h0 (le_of_lt hhalf)
    linarith
  · have hj : r * (1000 * 2 ^ n / 2) < 1 * (1000 * 2 ^ n / 2) :=
      mul_lt_mul_of_pos_right h1 hhalf
    linarith

theorem backoff_in_range_witness :
    1000 * 2 ^ 1 ≤ getBackoffTime 1 1000 (1 / 2)
    ∧ getBackoffTime 1 1000 (1 / 2) < 1000 * 2 ^ 1 + 500 * 2 ^ 1 :=
  backoff_in_range 1 (1 / 2) (by norm_num) (by norm_num) (by norm_num)

/-- C8: `upload` omits `content-type: application/json` only when the
caller passed no options at all (the `isUpload` default is applied just
then); with caller-supplied options that do not set `isUpload`, the
composed headers DO carry `content-type: application/json`, contradicting
the spec's "omitted for multipart uploads" — though Authorization is
always present. -/
theorem upload_contentType_injected_with_options :
    uploadHeaders "key" (some {}) =
      [("Authorization", "Bearer key"), ("content-type", "application/json")]
    ∧ uploadHeaders "key" none = [("Authorization", "Bearer key")] := by
  refine ⟨rfl, rfl⟩

/-- C9: constructing a client with no credential argument and no
environment fallback fails with the configuration error; the resolution is
a pure computation involving no network effect. -/
theorem constructor_missing_credential_fails :
    constructClient none none =
      Except.error "API key is required. Provide it as a parameter or set the WAVESPEED_API_KEY environment variable." := by
  rfl

/-- C10: a per-call `maxRetries` override of 0 is falsy, so the effective
budget resolves to the default 3 and the call retries exactly as with no
override — passing 0 cannot disable retries (an always-429 GET still makes
4 attempts). -/
theorem maxRetries_zero_falls_back_to_default :
    effectiveMaxRetries (some 0) = 3
    ∧ fetchWithTimeout always429 none (some 0) =
        fetchWithTimeout always429 none none
    ∧ fetchWithTimeout always429 none (some 0) =
        FetchOutcome.returned { status := 429 } 4 := by
  refine ⟨rfl, rfl, by decide⟩
